import Mathlib

/-!
Verification of the lbfeedback agent core against its natural-language
specification.  The definitions below are shallow embeddings of the Go
source (responder.go, statmodel.go, api_receiver.go, sysmon.go, metric.go,
connector.go): machine floats are modelled by exact rationals (or reals
where a square root is required), Go maps by association lists, and Go
errors by Option/Bool results.  Where the float model diverges from IEEE
behaviour (0/0 is NaN in Go but 0 in ℚ) a comment marks the spot, and every
concrete input used in a theorem avoids the divergent region or is robust
to it.
-/

/-- Go integer conversion `int(x)` of a float: truncation toward zero. -/
def goTrunc (q : ℚ) : ℤ := if 0 ≤ q then ⌊q⌋ else ⌈q⌉

/-- Go `math.Round`: round half away from zero. -/
def goRound (q : ℚ) : ℤ := if 0 ≤ q then ⌊q + 1/2⌋ else ⌈q - 1/2⌉

/-- Go `strings.TrimSpace`, modelled on the character list of the string. -/
def goTrimSpace (s : String) : String :=
  ⟨((s.data.dropWhile Char.isWhitespace).reverse.dropWhile Char.isWhitespace).reverse⟩

/-- Go `strings.ToLower` (ASCII case fold suffices for the identifiers used). -/
def goToLower (s : String) : String := ⟨s.data.map Char.toLower⟩

/-!
## Feedback responder (responder.go)

A `FeedbackSource` carries the configured significance, max-value and
per-source threshold, the derived relative significance, and `raw`, the
current integer result of its monitor's statistics model (the value
`source.Monitor.StatsModel.GetResult()` reads at request time).
-/

structure FeedbackSource where
  significance : ℚ
  maxValue : ℤ
  threshold : ℤ
  relativeSignificance : ℚ
  raw : ℤ
deriving DecidableEq

/-- Threshold modes of a responder (`ThresholdMode` enum in responder.go). -/
inductive ThresholdMode where
  | modeAny
  | modeNone
  | modeOverallOnly
  | modeMetricOnly
deriving DecidableEq

/-- Embedding of `isAnyThresholdEnabled`. -/
def isAnyThresholdEnabled (m : ThresholdMode) : Bool :=
  m = ThresholdMode.modeAny

/-- Embedding of `isMetricThresholdEnabled`. -/
def isMetricThresholdEnabled (m : ThresholdMode) : Bool :=
  m = ThresholdMode.modeAny || m = ThresholdMode.modeMetricOnly

/-- Embedding of `isOverallThresholdEnabled`. -/
def isOverallThresholdEnabled (m : ThresholdMode) : Bool :=
  m = ThresholdMode.modeAny || m = ThresholdMode.modeOverallOnly

/-- Embedding of `getSourceLoad`: clamp the raw model result at the
configured max value from above, scale to a rounded percentage, and clamp
the result into [0,100]. -/
def getSourceLoad (s : FeedbackSource) : ℤ :=
  let rawValue := if s.raw > s.maxValue then s.maxValue else s.raw
  let load := goRound ((rawValue : ℚ) / (s.maxValue : ℚ) * 100)
  if load > 100 then 100 else if load < 0 then 0 else load

/-- Embedding of `getThresholdStatus`: a threshold of zero (or below) is
disabled; otherwise the threshold is exceeded when the load is not below
it. -/
def getThresholdStatus (threshold load : ℤ) : Bool :=
  if threshold ≤ 0 then false
  else if load < threshold then false
  else true

/-- One iteration of the source loop in `GetAvailabilityState`, carrying
the pair (online flag, accumulated overall load). -/
def availStep (mode : ThresholdMode) (thresholdScore : ℤ)
    (acc : Bool × ℤ) (s : FeedbackSource) : Bool × ℤ :=
  let sourceLoad := getSourceLoad s
  let online1 := if isMetricThresholdEnabled mode &&
      getThresholdStatus s.threshold sourceLoad then false else acc.1
  let online2 := if isAnyThresholdEnabled mode &&
      getThresholdStatus thresholdScore sourceLoad then false else online1
  (online2, acc.2 + goTrunc ((sourceLoad : ℚ) * s.relativeSignificance))

/-- Embedding of `GetAvailabilityState`, returning the availability and
online flag.  (Go iterates the source map in arbitrary order; both
components are order-independent, so a list fold is faithful.) -/
def getAvailabilityState (mode : ThresholdMode) (thresholdScore : ℤ)
    (sources : List FeedbackSource) : ℤ × Bool :=
  let acc := sources.foldl (availStep mode thresholdScore) (true, 0)
  let online := if isOverallThresholdEnabled mode &&
      getThresholdStatus thresholdScore acc.2 then false else acc.1
  (100 - acc.2, online)

/-- Sum of the weighted per-source loads as the Go loop accumulates it:
each weighted term is truncated to an integer before being added. -/
def overallLoadValue (l : List FeedbackSource) : ℤ :=
  (l.map fun s => goTrunc ((getSourceLoad s : ℚ) * s.relativeSignificance)).sum

/-- Total significance across the sources of a responder, as accumulated by
`initialiseSources`. -/
def sumSig (srcs : List (String × FeedbackSource)) : ℚ :=
  (srcs.map fun p => p.2.significance).sum

/-- Validation performed on each source by the first loop of
`initialiseSources`: the referenced monitor must exist, the significance
must lie in [0,1], the max value must be nonnegative, and the threshold
must lie in [0,100]. -/
def validSource (monitors : List String) (p : String × FeedbackSource) : Bool :=
  monitors.contains p.1 &&
  !(p.2.significance < 0 || p.2.significance > 1) &&
  !(p.2.maxValue < 0) &&
  !(p.2.threshold < 0 || p.2.threshold > 100)

/-- Embedding of `initialiseSources`: validate every source, then set each
relative significance to significance / total.  Go computes the division on
floats, so a zero total yields NaN relative significances (0/0); in ℚ the
same division yields 0.  Under either convention the relative
significances fail to sum to 1 when the total is zero, and all general
theorems below assume a positive total. -/
def initialiseSources (monitors : List String)
    (srcs : List (String × FeedbackSource)) :
    Option (List (String × FeedbackSource)) :=
  if srcs.all (validSource monitors) then
    some (srcs.map fun p =>
      (p.1, { p.2 with relativeSignificance := p.2.significance / sumSig srcs }))
  else none

/-- Sum of the relative significances of a source list. -/
def sumRelSig (srcs : List (String × FeedbackSource)) : ℚ :=
  (srcs.map fun p => p.2.relativeSignificance).sum

/-- Embedding of `AddFeedbackSource`.  `monitors` maps each monitor name to
the integer default max of its metric (`int64(GetDefaultMax())`).  Returns
the resulting source list and whether the call succeeded (no error).  On a
validation failure the freshly inserted source is deleted again. -/
def addFeedbackSource (monitors : List (String × ℤ))
    (srcs : List (String × FeedbackSource)) (name : String)
    (significance : Option ℚ) (maxValue : Option ℤ) (threshold : Option ℤ) :
    List (String × FeedbackSource) × Bool :=
  let name := goTrimSpace name
  if name = "" then (srcs, false)
  else
    match (monitors.find? fun p => p.1 = name) with
    | none => (srcs, false)
    | some mon =>
      if srcs.any fun p => p.1 = name then (srcs, false)
      else
        let newSource : FeedbackSource :=
          { significance := significance.getD 1
            maxValue := maxValue.getD mon.2
            threshold := threshold.getD 0
            relativeSignificance := 0
            raw := 0 }
        match initialiseSources (monitors.map Prod.fst) (srcs ++ [(name, newSource)]) with
        | some updated => (updated, true)
        | none => (srcs, false)

/-- Embedding of `EditFeedbackSource`: apply the provided fields to the
named source, re-run `initialiseSources`, and restore the unedited source
on failure (the relative significances are untouched on failure because
`initialiseSources` validates before it recomputes them). -/
def editFeedbackSource (monitors : List (String × ℤ))
    (srcs : List (String × FeedbackSource)) (name : String)
    (significance : Option ℚ) (maxValue : Option ℤ) (threshold : Option ℤ) :
    List (String × FeedbackSource) × Bool :=
  if srcs.any fun p => p.1 = name then
    let updated := srcs.map fun p =>
      if p.1 = name then
        (p.1, { p.2 with
                  significance := significance.getD p.2.significance
                  maxValue := maxValue.getD p.2.maxValue
                  threshold := threshold.getD p.2.threshold })
      else p
    match initialiseSources (monitors.map Prod.fst) updated with
    | some out => (out, true)
    | none => (srcs, false)
  else (srcs, false)

/-- Embedding of `DeleteFeedbackSource`: remove the named source and re-run
`initialiseSources` (the Go code does not restore the deleted source if
re-initialisation fails). -/
def deleteFeedbackSource (monitors : List (String × ℤ))
    (srcs : List (String × FeedbackSource)) (name : String) :
    List (String × FeedbackSource) × Bool :=
  if srcs.any fun p => p.1 = name then
    let rest := srcs.filter fun p => ¬ p.1 = name
    match initialiseSources (monitors.map Prod.fst) rest with
    | some out => (out, true)
    | none => (rest, false)
  else (srcs, false)

/-!
### Definitions taken from the words of the specification

These are deliberately written from the sentences of the spec (claims C1
and C2), to be compared against the embedded code above.
-/

/-- Per-source load as worded in the spec: clamp(raw/max, 0, 1) scaled to a
percentage, rounded, and clamped to [0,100]. -/
def specSourceLoad (s : FeedbackSource) : ℤ :=
  let fraction := (s.raw : ℚ) / (s.maxValue : ℚ)
  let fraction := if fraction < 0 then 0 else if fraction > 1 then 1 else fraction
  let load := goRound (fraction * 100)
  if load > 100 then 100 else if load < 0 then 0 else load

/-- Availability as worded in claim C1: 100 minus the exact weighted sum of
the rounded-and-clamped per-source loads (no per-term truncation). -/
def specAvailability (l : List FeedbackSource) : ℚ :=
  100 - (l.map fun s => (specSourceLoad s : ℚ) * s.relativeSignificance).sum

/-- Online state as worded in claim C2: the only applicable checks are each
source's own non-zero threshold against that source's load (threshold mode
any or metric) and the global non-zero threshold against the integer
overall load (threshold mode any or overall). -/
def specOnlineClaim (mode : ThresholdMode) (globalThreshold : ℤ)
    (l : List FeedbackSource) : Bool :=
  (l.all fun s =>
    !(isMetricThresholdEnabled mode && !(s.threshold = 0) &&
      s.threshold ≤ getSourceLoad s)) &&
  !(isOverallThresholdEnabled mode && !(globalThreshold = 0) &&
    globalThreshold ≤ overallLoadValue l)

/-!
## Statistics model (statmodel.go)

Floats are modelled by real numbers and `math.Sqrt` by `Real.sqrt`;
division by zero is 0 in ℝ where Go would produce NaN, and no theorem
below relies on a state where that distinction matters.  Counts are ℕ
(the uint64 counters never wrap in any statement proved here).
-/

structure StatisticsModel where
  XLastValue : ℝ := 0
  XCount : ℕ := 0
  XAdjustedMean : ℝ := 0
  XStdDev : ℝ := 0
  ZScoreValue : ℝ := 0
  XSum : ℝ := 0
  XSquaredSum : ℝ := 0
  XMin : ℝ := 0
  XMax : ℝ := 0
  XCountLimit : ℕ := 0
  ZScoreSum : ℝ := 0
  ZScoreMean : ℝ := 0
  ZSampleCount : ℕ := 0
  ZMeanThreshold : ℝ := 0
  ZPredictionInterval : ℕ := 0
  Recentred : Bool := false
  StatsDisabled : Bool := false
  WeightCeiling : ℤ := 0
  WeightFloor : ℤ := 0
  WeightScalingFactor : ℝ := 0
  InverseWeight : Bool := false
  ParamsSet : Bool := false
  weightScore : ℤ := 0

/-- Embedding of `SetDefaultParams`. -/
noncomputable def SetDefaultParams (m : StatisticsModel) : StatisticsModel :=
  { m with
      XCountLimit := 0x100000000
      WeightCeiling := 99
      WeightFloor := 0
      WeightScalingFactor := 1
      ZMeanThreshold := 1
      ZPredictionInterval := 5
      ParamsSet := true }

/-- Embedding of `addXValue`. -/
noncomputable def addXValue (m : StatisticsModel) (value : ℝ) : StatisticsModel :=
  { m with
      XSum := m.XSum + value
      XSquaredSum := m.XSquaredSum + value ^ 2
      XCount := m.XCount + 1
      XLastValue := value }

/-- Embedding of `updateMinMax`. -/
noncomputable def updateMinMax (m : StatisticsModel) : StatisticsModel :=
  if m.XCount < 2 then { m with XMin := m.XLastValue, XMax := m.XLastValue }
  else
    let m1 := if m.XMin > m.XLastValue then { m with XMin := m.XLastValue } else m
    if m1.XMax < m1.XLastValue then { m1 with XMax := m1.XLastValue } else m1

/-- Embedding of `recalcMean`. -/
noncomputable def recalcMean (m : StatisticsModel) : StatisticsModel :=
  { m with XAdjustedMean := m.XSum / (m.XCount : ℝ) }

/-- Embedding of `recalcStdDev` (population formula, `math.Sqrt`). -/
noncomputable def recalcStdDev (m : StatisticsModel) : StatisticsModel :=
  { m with XStdDev :=
      Real.sqrt (m.XSquaredSum / (m.XCount : ℝ) - (m.XSum / (m.XCount : ℝ)) ^ 2) }

/-- Embedding of `recalcZScores`: a zero standard deviation defines the
Z-score of the observation as 0. -/
noncomputable def recalcZScores (m : StatisticsModel) : StatisticsModel :=
  let z := if |m.XStdDev| > 0 then (m.XLastValue - m.XAdjustedMean) / m.XStdDev else 0
  let zCount := m.ZSampleCount + 1
  let zSum := m.ZScoreSum + z
  { m with
      ZScoreValue := z
      ZSampleCount := zCount
      ZScoreSum := zSum
      ZScoreMean := zSum / (zCount : ℝ) }

/-- Embedding of `recentreMean`: collapse the X-statistics to a single
virtual observation at the adjusted mean.  Note that the stored standard
deviation is left untouched. -/
noncomputable def recentreMean (m : StatisticsModel) : StatisticsModel :=
  { m with
      XCount := 1
      XSum := m.XAdjustedMean
      XSquaredSum := m.XAdjustedMean ^ 2 }

/-- Embedding of `recentreZStats`. -/
noncomputable def recentreZStats (m : StatisticsModel) : StatisticsModel :=
  { m with
      ZSampleCount := 1
      ZScoreSum := m.ZScoreValue
      ZScoreMean := m.ZScoreValue }

/-- Embedding of `RecentreModel`. -/
noncomputable def RecentreModel (m : StatisticsModel) : StatisticsModel :=
  { recentreZStats (recentreMean m) with Recentred := true }

/-- Embedding of `handleZWindow`. -/
noncomputable def handleZWindow (m : StatisticsModel) : StatisticsModel :=
  if |m.ZMeanThreshold| > 0 then
    if m.ZSampleCount ≥ m.ZPredictionInterval then
      if |m.ZScoreMean| ≥ m.ZMeanThreshold then
        RecentreModel { m with XAdjustedMean := m.XAdjustedMean + m.ZScoreMean * m.XStdDev }
      else recentreZStats m
    else m
  else m

/-- Embedding of `calculateWeightScore`. -/
noncomputable def calculateWeightScore (m : StatisticsModel) : StatisticsModel :=
  let fraction0 := m.XAdjustedMean / 100
  let fraction := if fraction0 < 0 then 0 else if fraction0 > 1 then 1 else fraction0
  let score0 := ⌊fraction * ((m.WeightCeiling - m.WeightFloor : ℤ) : ℝ)⌋ + m.WeightFloor
  let score := if ¬ m.InverseWeight then m.WeightCeiling - score0 else score0
  { m with weightScore := score }

/-- Embedding of `NewValue` (the observe operation). -/
noncomputable def NewValue (m : StatisticsModel) (value : ℝ) : StatisticsModel :=
  let m := if ¬ m.ParamsSet then SetDefaultParams m else m
  let m :=
    if ¬ m.StatsDisabled then
      let m := { m with Recentred := false }
      let m :=
        if m.XCount + 1 > m.XCountLimit then RecentreModel m
        else recalcZScores (recalcStdDev (recalcMean (updateMinMax (addXValue m value))))
      handleZWindow m
    else { m with XAdjustedMean := value }
  calculateWeightScore m

/-- Embedding of `GetWeightScore`: the ceiling is returned until at least
one observation exists. -/
def GetWeightScore (m : StatisticsModel) : ℤ :=
  if m.XCount < 1 then m.WeightCeiling else m.weightScore

/-- Rounding of a real to an integer, half away from zero (used to state
the spec's round(min)/round(max)/round(last) bounds). -/
noncomputable def goRoundR (x : ℝ) : ℤ := if 0 ≤ x then ⌊x + 1/2⌋ else ⌈x - 1/2⌉

/-!
## API receiver (api_receiver.go)
-/

/-- Embedding of `errors.Join` restricted to two operands as used in
`ProcessAPIRequest`: nil operands are dropped, and the join of two non-nil
errors keeps both messages. -/
def joinErr : Option String → Option String → Option String
  | none, none => none
  | none, some e => some e
  | some e, none => some e
  | some e1, some e2 => some (e1 ++ "\n" ++ e2)

/-- Embedding of the tail of `ProcessAPIRequest`: after the action tree has
produced `treeErr`, a pending unsaved-changes flag triggers a config save
whose error (if any) is joined into the request error; the response then
reports success exactly when the joined error is nil. -/
def processRequestOutcome (treeErr : Option String) (unsavedChanges : Bool)
    (saveErr : Option String) : Bool × Option String :=
  let err := if unsavedChanges then joinErr treeErr saveErr else treeErr
  match err with
  | none => (true, none)
  | some e => (false, some e)

/-- Result of the API-key clause of `ValidateAPIRequest`: the request is
authorised iff the supplied key is nonempty and equal to the agent key
(`request.APIKey == "" || request.APIKey != agent.APIKey` raises
bad-api-key). -/
def validateAPIKey (agentKey requestKey : List Char) : Bool :=
  !(requestKey = []) && requestKey = agentKey

/-- Number of character comparisons performed by the early-exit equality
scan underlying the Go string comparison in `ValidateAPIRequest` (after
the constant-time length check, `==` on strings compares bytes until the
first mismatch). -/
def goStringEqSteps : List Char → List Char → ℕ
  | a :: as, b :: bs => if a = b then 1 + goStringEqSteps as bs else 1
  | _, _ => 0

/-!
## System monitor and monitor edit (sysmon.go, api_receiver.go)
-/

/-- Configuration fields of a `SystemMonitor` (sysmon.go).  `Params` is the
metric parameter map, modelled as an association list. -/
structure SystemMonitor where
  Name : String
  MetricType : String
  Interval : ℤ
  Params : List (String × String)
  SmartShape : Bool
deriving DecidableEq

/-- Update or insert a key in a Go map modelled as an association list. -/
def mapSet (m : List (String × String)) (key value : String) :
    List (String × String) :=
  if m.any fun p => p.1 = key then
    m.map fun p => if p.1 = key then (p.1, value) else p
  else m ++ [(key, value)]

/-- Embedding of `StandardiseNameIdentifier`: lowercase and trim; an empty
result is an error (represented here by returning the empty string). -/
def standardiseNameIdentifier (s : String) : String :=
  goToLower (goTrimSpace s)

/-- Validation performed by `SystemMonitor.Initialise` via `NewMetric`:
the metric type must be one of the five known kinds, and `Configure` then
requires a disk-path parameter for disk-usage and a script-name parameter
for script metrics (cpu, ram and netconn never fail to configure). -/
def newMetricOk (metricType : String) (params : List (String × String)) : Bool :=
  if metricType = "cpu" then true
  else if metricType = "ram" then true
  else if metricType = "disk-usage" then params.any fun p => p.1 = "disk-path"
  else if metricType = "netconn" then true
  else if metricType = "script" then params.any fun p => p.1 = "script-name"
  else false

/-- Apply the metric-config updates of an edit request to a parameter map,
as the loop in `APIEditMonitor` does: keys are lowercased and trimmed,
values trimmed, and blank keys or values are skipped. -/
def applyParamUpdates (params : List (String × String))
    (updates : List (String × String)) : List (String × String) :=
  updates.foldl
    (fun acc kv =>
      let key := goToLower (goTrimSpace kv.1)
      let value := goTrimSpace kv.2
      if key = "" ∨ value = "" then acc else mapSet acc key value)
    params

/-- Embedding of `APIEditMonitor` acting on the live monitor targeted by
the request.  `SystemMonitor.Copy` in the source is a shallow struct copy,
so the copied monitor shares its `Params` map with the live one: parameter
writes performed on the copy are visible through the live monitor even
when validation subsequently fails.  The function returns the live object
after the call together with the success flag (true = no error). -/
def apiEditMonitor (live : SystemMonitor) (reqMetricType : Option String)
    (reqInterval : Option ℤ) (reqParams : Option (List (String × String)))
    (reqSmartShape : Option Bool) : SystemMonitor × Bool :=
  -- Field updates applied to the copy; the params map is shared with `live`.
  let newParams :=
    match reqParams with
    | some updates => applyParamUpdates live.Params updates
    | none => live.Params
  let liveShared := { live with Params := newParams }
  let typeChanged : Bool :=
    match reqMetricType with
    | some t => !(standardiseNameIdentifier t = "") &&
        !(standardiseNameIdentifier t = live.MetricType)
    | none => false
  let newType :=
    match reqMetricType with
    | some t => if standardiseNameIdentifier t = "" ∨
        standardiseNameIdentifier t = live.MetricType then live.MetricType
        else standardiseNameIdentifier t
    | none => live.MetricType
  let intervalChanged : Bool :=
    match reqInterval with
    | some i => !(i = live.Interval)
    | none => false
  let newInterval := (reqInterval.filter fun i => ¬ i = live.Interval).getD live.Interval
  let paramsChanged : Bool :=
    match reqParams with
    | some updates => updates.any fun kv =>
        !(goToLower (goTrimSpace kv.1) = "") && !(goTrimSpace kv.2 = "")
    | none => false
  let shapeChanged : Bool :=
    match reqSmartShape with
    | some b => !(b = live.SmartShape)
    | none => false
  let newShape := (reqSmartShape.filter fun b => ¬ b = live.SmartShape).getD live.SmartShape
  let changed := typeChanged || intervalChanged || paramsChanged || shapeChanged
  let newMonitor : SystemMonitor :=
    { Name := live.Name, MetricType := newType, Interval := newInterval,
      Params := newParams, SmartShape := newShape }
  if changed then
    if newMetricOk newMonitor.MetricType newMonitor.Params then (newMonitor, true)
    else (liveShared, false)
  else (liveShared, true)

/-!
## CPU metric mean (metric.go) and TCP connector (connector.go)
-/

/-- Embedding of `calculateMean`: the Go loop starts at index 1, so the
first element is *not* added to the total, yet the total is divided by the
full length of the slice. -/
def calculateMean (values : List ℚ) : ℚ :=
  ((values.drop 1).sum) / (values.length : ℚ)

/-- The arithmetic mean a slice-average is expected to compute (spec: the
CPU sample is the average of per-core utilization percentages). -/
def arithmeticMean (values : List ℚ) : ℚ :=
  values.sum / (values.length : ℚ)

/-- Embedding of the address construction in `TCPConnector.Listen`: the
trimmed IP (with the wildcard mapped to the empty string) is computed but
then unconditionally overwritten by ":" followed by the trimmed port. -/
def tcpListenAddress (ip port : String) : String :=
  let addressString := goTrimSpace ip
  let addressString := if addressString = "*" then "" else addressString
  let addressString := ":" ++ goTrimSpace port
  addressString

/-- Online state as the code actually computes it, written as a predicate
(amended claim C2): besides the checks named by the spec, threshold mode
`any` also compares the global threshold against every individual source
load. -/
def amendedOnline (mode : ThresholdMode) (globalThreshold : ℤ)
    (l : List FeedbackSource) : Prop :=
  (∀ s ∈ l,
    (isMetricThresholdEnabled mode = true → 0 < s.threshold →
      getSourceLoad s < s.threshold) ∧
    (isAnyThresholdEnabled mode = true → 0 < globalThreshold →
      getSourceLoad s < globalThreshold)) ∧
  (isOverallThresholdEnabled mode = true → 0 < globalThreshold →
    overallLoadValue l < globalThreshold)

/-- Zero value of the statistics model, as allocated by
`SystemMonitor.Initialise` (`&StatisticsModel{}`). -/
def initialStatsModel : StatisticsModel := {}

/-!
## Theorems
-/

/-- Claim C10: the address string the TCP connector binds to is ":"
followed by the configured port, for every configured listen IP address
(the IP, wildcard or specific, is discarded by the unconditional
overwrite in `TCPConnector.Listen`). -/
theorem c10_tcp_listen_address (ip port : String)
    (h : goTrimSpace port = port) :
    tcpListenAddress ip port = ":" ++ port := by
  simp [tcpListenAddress, h]

/-- Witness for C10 at a concrete specific IP and port. -/
theorem c10_tcp_listen_address_witness :
    tcpListenAddress "127.0.0.1" "3333" = ":" ++ "3333" :=
  c10_tcp_listen_address "127.0.0.1" "3333" (by decide)

/-- Counterexample to claim C7: an API request whose in-memory mutation
succeeds (no action-tree error) but whose config save fails is reported as
failed, not successful — the joined save error flips the success flag. -/
theorem c7_counterexample :
    processRequestOutcome none true (some "disk full") =
      (false, some "disk full") := rfl

/-- Claim C7 as amended: the response reports success exactly when the
action tree produced no error and, if a save was attempted, the save also
succeeded; a save error is joined into the returned error and makes the
response report failure even though the in-memory mutation stands. -/
theorem c7_amended (treeErr : Option String) (unsaved : Bool)
    (saveErr : Option String) :
    (processRequestOutcome treeErr unsaved saveErr).1 = true ↔
      (treeErr = none ∧ (unsaved = true → saveErr = none)) := by
  cases treeErr <;> cases unsaved <;> cases saveErr <;>
    simp [processRequestOutcome, joinErr]

/-- Claim C9 (code bug): `calculateMean` evaluated at the failing input
[100, 0] returns 0, while the arithmetic mean of the per-core values —
which the spec and the function's own doc comment promise — is 50.  The
Go loop starts at index 1, dropping the first core, yet divides by the
full core count. -/
theorem c9_code_eval :
    calculateMean [100, 0] = 0 ∧ arithmeticMean [100, 0] = 50 := by
  constructor <;> norm_num [calculateMean, arithmeticMean]

/-- Claim C3 (code bug): editing the monitor "cpu" with an unknown metric
type and a metric-config entry fails validation, yet the live monitor's
parameter map has been mutated (the shallow `Copy` shares the map), so the
live object is not left unchanged field for field. -/
theorem c3_code_eval :
    apiEditMonitor ⟨"cpu", "cpu", 1000, [], false⟩
        (some "bogus") none (some [("k", "v")]) none =
      (⟨"cpu", "cpu", 1000, [("k", "v")], false⟩, false) := by
  decide

/-- Counterexample to claim C8: under the comparison-step cost model of
the early-exit string equality used on the API key, two wrong keys of the
same length as the agent key take a different number of character
comparisons (1 versus 4), so the compare is not constant-time. -/
theorem c8_counterexample :
    ("zbcd".data.length = "abcd".data.length ∧
      "abcz".data.length = "abcd".data.length) ∧
    validateAPIKey "abcd".data "zbcd".data = false ∧
    validateAPIKey "abcd".data "abcz".data = false ∧
    goStringEqSteps "zbcd".data "abcd".data = 1 ∧
    goStringEqSteps "abcz".data "abcd".data = 4 ∧
    ¬ goStringEqSteps "zbcd".data "abcd".data =
        goStringEqSteps "abcz".data "abcd".data := by
  decide

/-- Scanning two lists that share a prefix costs the prefix length plus
the cost of comparing the remainders. -/
theorem goStringEqSteps_replicate_prefix (n : ℕ) (c : Char)
    (l1 l2 : List Char) :
    goStringEqSteps (List.replicate n c ++ l1) (List.replicate n c ++ l2) =
      n + goStringEqSteps l1 l2 := by
  induction n with
  | zero => simp
  | succ k ih => simp [List.replicate_succ, goStringEqSteps, ih]; omega

/-- Claim C8 as amended: the API key is compared with the early-exit
string equality of the language runtime, whose comparison cost is the
length of the common prefix plus one; for every margin there are two
wrong keys of the same length whose costs differ by more than that
margin, so the compare is not constant-time in any margin. -/
theorem c8_amended (margin : ℕ) :
    ∃ agentKey k1 k2 : List Char,
      k1.length = k2.length ∧
      validateAPIKey agentKey k1 = false ∧
      validateAPIKey agentKey k2 = false ∧
      goStringEqSteps k1 agentKey + margin < goStringEqSteps k2 agentKey := by
  refine ⟨List.replicate (margin + 2) 'a',
    'b' :: List.replicate (margin + 1) 'a',
    List.replicate (margin + 1) 'a' ++ ['b'], ?_, ?_, ?_, ?_⟩
  · simp
  · have hne : ('b' :: List.replicate (margin + 1) 'a') ≠
        List.replicate (margin + 2) 'a' := by
      intro h
      rw [show margin + 2 = (margin + 1) + 1 from rfl, List.replicate_succ] at h
      injection h with h1 h2
      exact absurd h1 (by decide)
    simp [validateAPIKey, hne]
  · have hne : (List.replicate (margin + 1) 'a' ++ ['b']) ≠
        List.replicate (margin + 2) 'a' := by
      intro h
      rw [show margin + 2 = (margin + 1) + 1 from rfl,
        List.replicate_succ' (margin + 1) 'a'] at h
      have := List.append_cancel_left h
      simp at this
    simp [validateAPIKey, hne]
  · have h1 : goStringEqSteps ('b' :: List.replicate (margin + 1) 'a')
        (List.replicate (margin + 2) 'a') = 1 := by
      rw [show margin + 2 = (margin + 1) + 1 from rfl, List.replicate_succ]
      simp [goStringEqSteps]
    have h2 : goStringEqSteps (List.replicate (margin + 1) 'a' ++ ['b'])
        (List.replicate (margin + 2) 'a') = margin + 2 := by
      rw [show margin + 2 = (margin + 1) + 1 from rfl,
        List.replicate_succ' (margin + 1) 'a',
        goStringEqSteps_replicate_prefix]
      simp [goStringEqSteps]
    rw [h1, h2]
    omega


/-- Counterexample to claim C1: a responder with two equally weighted
sources both at raw load 51 of max 100.  Initialisation gives each source
relative significance 1/2; the code truncates each weighted term
(25.5 → 25) before summing and returns availability 50, while the formula
of the claim — 100 minus the exact weighted sum of the rounded per-source
loads — gives 49. -/
theorem c1_counterexample :
    initialiseSources ["cpu", "ram"]
        [("cpu", ⟨1, 100, 0, 0, 51⟩), ("ram", ⟨1, 100, 0, 0, 51⟩)] =
      some [("cpu", ⟨1, 100, 0, 1/2, 51⟩), ("ram", ⟨1, 100, 0, 1/2, 51⟩)] ∧
    (getAvailabilityState ThresholdMode.modeNone 0
      [⟨1, 100, 0, 1/2, 51⟩, ⟨1, 100, 0, 1/2, 51⟩]).1 = 50 ∧
    specAvailability [⟨1, 100, 0, 1/2, 51⟩, ⟨1, 100, 0, 1/2, 51⟩] = 49 := by
  refine ⟨?_, ?_, ?_⟩
  · norm_num [initialiseSources, validSource, sumSig]
  · norm_num [getAvailabilityState, availStep, getSourceLoad, goRound, goTrunc,
      getThresholdStatus, isMetricThresholdEnabled, isAnyThresholdEnabled,
      isOverallThresholdEnabled]
  · norm_num [specAvailability, specSourceLoad, goRound]

/-- Counterexample to claim C2: threshold mode `any` with global
threshold 50 and two equally weighted sources with disabled (zero)
per-source thresholds at loads 60 and 0.  The overall load is 30, below
the global threshold, and no check named by the claim triggers, yet the
code reports offline because in mode `any` it also compares the global
threshold against each individual source load (60 ≥ 50). -/
theorem c2_counterexample :
    initialiseSources ["cpu", "ram"]
        [("cpu", ⟨1, 100, 0, 0, 60⟩), ("ram", ⟨1, 100, 0, 0, 0⟩)] =
      some [("cpu", ⟨1, 100, 0, 1/2, 60⟩), ("ram", ⟨1, 100, 0, 1/2, 0⟩)] ∧
    (getAvailabilityState ThresholdMode.modeAny 50
      [⟨1, 100, 0, 1/2, 60⟩, ⟨1, 100, 0, 1/2, 0⟩]).2 = false ∧
    specOnlineClaim ThresholdMode.modeAny 50
      [⟨1, 100, 0, 1/2, 60⟩, ⟨1, 100, 0, 1/2, 0⟩] = true := by
  refine ⟨?_, ?_, ?_⟩
  · norm_num [initialiseSources, validSource, sumSig]
  · norm_num [getAvailabilityState, availStep, getSourceLoad, goRound, goTrunc,
      getThresholdStatus, isMetricThresholdEnabled, isAnyThresholdEnabled,
      isOverallThresholdEnabled]
  · norm_num [specOnlineClaim, overallLoadValue, getSourceLoad, goRound,
      goTrunc, getThresholdStatus, isMetricThresholdEnabled,
      isAnyThresholdEnabled, isOverallThresholdEnabled]

/-- Counterexample to claim C4: adding a source with significance 0 to a
responder with no sources is accepted, and the relative significances of
the resulting single-source responder sum to 0, not 1.  (In the Go source
the division 0.0/0.0 makes the relative significance NaN; in the rational
model it is 0.  Under either semantics the sum is not 1.) -/
theorem c4_counterexample :
    (addFeedbackSource [("cpu", 100)] [] "cpu" (some 0) none none).2 = true ∧
    ¬ sumRelSig (addFeedbackSource [("cpu", 100)] [] "cpu"
        (some 0) none none).1 = 1 := by
  have h : goTrimSpace "cpu" = "cpu" := by decide
  have h2 : ¬ ("cpu" : String) = "" := by decide
  constructor <;>
    norm_num [addFeedbackSource, h, h2, initialiseSources, validSource, sumSig,
      sumRelSig]

/-- Accumulating the overall load over the source loop equals the initial
accumulator plus the sum of the truncated weighted loads. -/
theorem availFold_snd (mode : ThresholdMode) (ts : ℤ)
    (l : List FeedbackSource) (b : Bool) (a : ℤ) :
    (l.foldl (availStep mode ts) (b, a)).2 = a + overallLoadValue l := by
  induction l generalizing b a with
  | nil => simp [overallLoadValue]
  | cons s rest ih =>
    simp only [List.foldl_cons, overallLoadValue, List.map_cons, List.sum_cons]
    rw [show availStep mode ts (b, a) s =
      ((availStep mode ts (b, a) s).1,
        a + goTrunc ((getSourceLoad s : ℚ) * s.relativeSignificance)) from rfl]
    rw [ih]
    simp [overallLoadValue]
    ring

/-- The online flag accumulated over the source loop is the initial flag
conjoined with the per-source checks of the loop body. -/
theorem availFold_fst (mode : ThresholdMode) (ts : ℤ)
    (l : List FeedbackSource) (b : Bool) (a : ℤ) :
    (l.foldl (availStep mode ts) (b, a)).1 =
      (b && l.all fun s =>
        !(isMetricThresholdEnabled mode &&
            getThresholdStatus s.threshold (getSourceLoad s)) &&
        !(isAnyThresholdEnabled mode &&
            getThresholdStatus ts (getSourceLoad s))) := by
  induction l generalizing b a with
  | nil => simp
  | cons s rest ih =>
    simp only [List.foldl_cons, List.all_cons]
    rw [ih]
    have hstep : (availStep mode ts (b, a) s).1 =
        (b && (!(isMetricThresholdEnabled mode &&
            getThresholdStatus s.threshold (getSourceLoad s)) &&
          !(isAnyThresholdEnabled mode &&
            getThresholdStatus ts (getSourceLoad s)))) := by
      simp only [availStep]
      cases hm : (isMetricThresholdEnabled mode &&
          getThresholdStatus s.threshold (getSourceLoad s)) <;>
        cases ha : (isAnyThresholdEnabled mode &&
          getThresholdStatus ts (getSourceLoad s)) <;>
        cases b <;> simp
    rw [hstep]
    cases b <;> simp [Bool.and_assoc, Bool.and_comm, Bool.and_left_comm]

/-- A disabled or unreached threshold, as a proposition. -/
theorem getThresholdStatus_false_iff (t x : ℤ) :
    getThresholdStatus t x = false ↔ (0 < t → x < t) := by
  unfold getThresholdStatus
  split_ifs with h1 h2 <;> simp <;> omega

/-- A triggered threshold, as a proposition. -/
theorem getThresholdStatus_true_iff (t x : ℤ) :
    getThresholdStatus t x = true ↔ (0 < t ∧ t ≤ x) := by
  unfold getThresholdStatus
  split_ifs with h1 h2 <;> simp <;> omega

/-- Claim C2 as amended: the responder is online iff no applicable check
triggers, where the applicable checks are each source's own non-zero
threshold against its load (modes any and metric), the global non-zero
threshold against each individual source load (mode any — the check the
original claim omits), and the global non-zero threshold against the
integer overall load (modes any and overall); a zero threshold disables
its check. -/
theorem c2_amended (mode : ThresholdMode) (g : ℤ) (l : List FeedbackSource) :
    ((getAvailabilityState mode g l).2 = true) ↔ amendedOnline mode g l := by
  rw [show (getAvailabilityState mode g l).2 =
      (if isOverallThresholdEnabled mode &&
          getThresholdStatus g ((l.foldl (availStep mode g) (true, 0)).2)
        then false else (l.foldl (availStep mode g) (true, 0)).1) from rfl]
  rw [availFold_fst, availFold_snd]
  unfold amendedOnline
  cases mode <;>
    simp [isAnyThresholdEnabled, isMetricThresholdEnabled,
      isOverallThresholdEnabled, List.all_eq_true,
      getThresholdStatus_false_iff, getThresholdStatus_true_iff,
      apply_ite (fun b : Bool => b = true)]
  case modeAny =>
    constructor
    · rintro ⟨hov, hall⟩
      exact ⟨hall, fun hg => hov.resolve_left (by omega)⟩
    · rintro ⟨hall, hov⟩
      refine ⟨?_, hall⟩
      by_cases hg : 0 < g
      · exact Or.inr (hov hg)
      · exact Or.inl (by omega)
  case modeOverallOnly =>
    constructor
    · intro hov hg
      exact hov.resolve_left (by omega)
    · intro hov
      by_cases hg : 0 < g
      · exact Or.inr (hov hg)
      · exact Or.inl (by omega)

/-- Truncation toward zero of a nonnegative rational is nonnegative. -/
theorem goTrunc_nonneg {q : ℚ} (h : 0 ≤ q) : 0 ≤ goTrunc q := by
  unfold goTrunc
  rw [if_pos h]
  exact Int.floor_nonneg.mpr h

/-- Truncation toward zero of a nonnegative rational does not exceed it. -/
theorem goTrunc_cast_le {q : ℚ} (h : 0 ≤ q) : (goTrunc q : ℚ) ≤ q := by
  unfold goTrunc
  rw [if_pos h]
  exact Int.floor_le q

/-- The clamped per-source load is nonnegative. -/
theorem getSourceLoad_nonneg (s : FeedbackSource) : 0 ≤ getSourceLoad s := by
  unfold getSourceLoad
  dsimp only
  split_ifs <;> omega

/-- The clamped per-source load is at most 100. -/
theorem getSourceLoad_le_100 (s : FeedbackSource) : getSourceLoad s ≤ 100 := by
  unfold getSourceLoad
  dsimp only
  split_ifs <;> omega

/-- Unfolding of a successful `initialiseSources` call: all sources are
valid and the output rescales each relative significance. -/
theorem initialiseSources_eq {mons : List String}
    {srcs out : List (String × FeedbackSource)}
    (h : initialiseSources mons srcs = some out) :
    srcs.all (validSource mons) = true ∧
    out = srcs.map (fun p =>
      (p.1, { p.2 with
        relativeSignificance := p.2.significance / sumSig srcs })) := by
  unfold initialiseSources at h
  split_ifs at h with hv
  exact ⟨hv, (Option.some.injEq _ _ ▸ h).symm⟩

/-- Summing a list divided elementwise equals dividing the sum. -/
theorem list_sum_div (l : List ℚ) (c : ℚ) :
    (l.map fun q => q / c).sum = l.sum / c := by
  induction l with
  | nil => simp
  | cons x xs ih => simp [ih, add_div]

/-- The accumulated overall load is nonnegative when all relative
significances are. -/
theorem overallLoadValue_nonneg (l : List FeedbackSource)
    (h : ∀ s ∈ l, 0 ≤ s.relativeSignificance) : 0 ≤ overallLoadValue l := by
  induction l with
  | nil => simp [overallLoadValue]
  | cons s rest ih =>
    have hs := h s (List.mem_cons_self s rest)
    have hrest := ih fun x hx => h x (List.mem_cons_of_mem _ hx)
    simp only [overallLoadValue, List.map_cons, List.sum_cons] at *
    have hterm : 0 ≤ goTrunc ((getSourceLoad s : ℚ) * s.relativeSignificance) :=
      goTrunc_nonneg (mul_nonneg (by exact_mod_cast getSourceLoad_nonneg s) hs)
    omega

/-- The accumulated overall load is bounded by 100 times the sum of the
relative significances. -/
theorem overallLoadValue_le (l : List FeedbackSource)
    (h : ∀ s ∈ l, 0 ≤ s.relativeSignificance) :
    (overallLoadValue l : ℚ) ≤
      100 * (l.map fun s => s.relativeSignificance).sum := by
  induction l with
  | nil => simp [overallLoadValue]
  | cons s rest ih =>
    have hs := h s (List.mem_cons_self s rest)
    have hrest := ih fun x hx => h x (List.mem_cons_of_mem _ hx)
    simp only [overallLoadValue, List.map_cons, List.sum_cons] at *
    have t1 : ((goTrunc ((getSourceLoad s : ℚ) * s.relativeSignificance)) : ℚ) ≤
        (getSourceLoad s : ℚ) * s.relativeSignificance :=
      goTrunc_cast_le (mul_nonneg (by exact_mod_cast getSourceLoad_nonneg s) hs)
    have t2 : (getSourceLoad s : ℚ) * s.relativeSignificance ≤
        100 * s.relativeSignificance :=
      mul_le_mul_of_nonneg_right (by exact_mod_cast getSourceLoad_le_100 s) hs
    push_cast
    push_cast at hrest
    linarith

/-- Claim C1 as amended: for a responder whose sources passed
initialisation with positive total significance, the availability equals
100 minus the overall load in which each weighted per-source term is
truncated to an integer before summation (not the exact rational sum the
original claim states), and the availability lies in [0, 100]. -/
theorem c1_amended (mons : List String)
    (srcs out : List (String × FeedbackSource)) (mode : ThresholdMode)
    (ts : ℤ) (hi : initialiseSources mons srcs = some out)
    (hT : 0 < sumSig srcs) :
    (getAvailabilityState mode ts (out.map Prod.snd)).1 =
      100 - overallLoadValue (out.map Prod.snd) ∧
    0 ≤ (getAvailabilityState mode ts (out.map Prod.snd)).1 ∧
    (getAvailabilityState mode ts (out.map Prod.snd)).1 ≤ 100 := by
  obtain ⟨hv, hout⟩ := initialiseSources_eq hi
  have havail : (getAvailabilityState mode ts (out.map Prod.snd)).1 =
      100 - overallLoadValue (out.map Prod.snd) := by
    rw [show (getAvailabilityState mode ts (out.map Prod.snd)).1 =
      100 - ((out.map Prod.snd).foldl (availStep mode ts) (true, 0)).2 from rfl]
    rw [availFold_snd]
    simp
  have hrelnn : ∀ s ∈ out.map Prod.snd, 0 ≤ s.relativeSignificance := by
    subst hout
    intro s hs
    simp only [List.map_map, List.mem_map] at hs
    obtain ⟨p, hp, rfl⟩ := hs
    have hvp : validSource mons p = true := by
      rw [List.all_eq_true] at hv
      exact hv p hp
    simp only [validSource, Bool.and_eq_true, Bool.not_eq_true',
      Bool.or_eq_false_iff, decide_eq_false_iff_not, not_lt] at hvp
    refine div_nonneg ?_ (le_of_lt hT)
    tauto
  have hrelsum : ((out.map Prod.snd).map fun s => s.relativeSignificance).sum
      = 1 := by
    have hmap : ((out.map Prod.snd).map fun s => s.relativeSignificance) =
        (srcs.map fun p => p.2.significance).map fun q => q / sumSig srcs := by
      subst hout
      simp [Function.comp]
    rw [hmap, list_sum_div]
    exact div_self (ne_of_gt hT)
  refine ⟨havail, ?_, ?_⟩
  · rw [havail]
    have hle := overallLoadValue_le _ hrelnn
    rw [hrelsum, mul_one] at hle
    have : overallLoadValue (out.map Prod.snd) ≤ 100 := by exact_mod_cast hle
    omega
  · rw [havail]
    have := overallLoadValue_nonneg _ hrelnn
    omega

/-- Witness for C1 as amended, at a single full-significance CPU source at
raw load 50 of max 100. -/
theorem c1_amended_witness :
    (getAvailabilityState ThresholdMode.modeAny 0
        ([("cpu", (⟨1, 100, 0, 1, 50⟩ : FeedbackSource))].map Prod.snd)).1 =
      100 - overallLoadValue
        ([("cpu", (⟨1, 100, 0, 1, 50⟩ : FeedbackSource))].map Prod.snd) ∧
    0 ≤ (getAvailabilityState ThresholdMode.modeAny 0
        ([("cpu", (⟨1, 100, 0, 1, 50⟩ : FeedbackSource))].map Prod.snd)).1 ∧
    (getAvailabilityState ThresholdMode.modeAny 0
        ([("cpu", (⟨1, 100, 0, 1, 50⟩ : FeedbackSource))].map Prod.snd)).1
      ≤ 100 :=
  c1_amended ["cpu"] [("cpu", ⟨1, 100, 0, 0, 50⟩)]
    [("cpu", ⟨1, 100, 0, 1, 50⟩)] ThresholdMode.modeAny 0
    (by norm_num [initialiseSources, validSource, sumSig])
    (by norm_num [sumSig])

/-- After a successful initialisation with non-zero total significance,
the relative significances sum to exactly 1. -/
theorem sumRelSig_initialise {mons : List String}
    {srcs out : List (String × FeedbackSource)}
    (hi : initialiseSources mons srcs = some out)
    (hT : ¬ sumSig srcs = 0) : sumRelSig out = 1 := by
  obtain ⟨-, hout⟩ := initialiseSources_eq hi
  subst hout
  unfold sumRelSig
  have hmap : ((srcs.map fun p =>
      (p.1, { p.2 with
        relativeSignificance := p.2.significance / sumSig srcs })).map
        fun p => p.2.relativeSignificance) =
      (srcs.map fun p => p.2.significance).map fun q => q / sumSig srcs := by
    simp [List.map_map, Function.comp]
  rw [hmap, list_sum_div]
  exact div_self hT

/-- Initialisation does not change the configured significances. -/
theorem sumSig_initialise {mons : List String}
    {srcs out : List (String × FeedbackSource)}
    (hi : initialiseSources mons srcs = some out) :
    sumSig out = sumSig srcs := by
  obtain ⟨-, hout⟩ := initialiseSources_eq hi
  subst hout
  unfold sumSig
  rw [List.map_map]
  exact congrArg List.sum (List.map_congr_left fun p _ => rfl)

/-- Claim C4 as amended: after every successful `AddFeedbackSource`,
`EditFeedbackSource` and `DeleteFeedbackSource` whose resulting source
list has positive total significance, the relative significances sum to
exactly 1; the all-zero-significance case of the original claim is
excluded, since there the division by the zero total makes the relative
significances NaN (0 in the rational model) and their sum is not 1. -/
theorem c4_amended (mons : List (String × ℤ))
    (srcs : List (String × FeedbackSource)) (nAdd nEdit nDel : String)
    (sig : Option ℚ) (mx : Option ℤ) (thr : Option ℤ)
    (outAdd outEdit outDel : List (String × FeedbackSource)) :
    (addFeedbackSource mons srcs nAdd sig mx thr = (outAdd, true) →
      0 < sumSig outAdd → sumRelSig outAdd = 1) ∧
    (editFeedbackSource mons srcs nEdit sig mx thr = (outEdit, true) →
      0 < sumSig outEdit → sumRelSig outEdit = 1) ∧
    (deleteFeedbackSource mons srcs nDel = (outDel, true) →
      0 < sumSig outDel → sumRelSig outDel = 1) := by
  refine ⟨?_, ?_, ?_⟩
  · intro h hT
    unfold addFeedbackSource at h
    dsimp only [] at h
    split at h
    · exact absurd (congrArg Prod.snd h) (by simp)
    · split at h
      · exact absurd (congrArg Prod.snd h) (by simp)
      · split at h
        · exact absurd (congrArg Prod.snd h) (by simp)
        · split at h
          next updated heq =>
            have h1 : updated = outAdd := congrArg Prod.fst h
            subst h1
            rw [sumSig_initialise heq] at hT
            exact sumRelSig_initialise heq (ne_of_gt hT)
          next heq => exact absurd (congrArg Prod.snd h) (by simp)
  · intro h hT
    unfold editFeedbackSource at h
    dsimp only [] at h
    split at h
    · split at h
      next out2 heq =>
        have h1 : out2 = outEdit := congrArg Prod.fst h
        subst h1
        rw [sumSig_initialise heq] at hT
        exact sumRelSig_initialise heq (ne_of_gt hT)
      next heq => exact absurd (congrArg Prod.snd h) (by simp)
    · exact absurd (congrArg Prod.snd h) (by simp)
  · intro h hT
    unfold deleteFeedbackSource at h
    dsimp only [] at h
    split at h
    · split at h
      next out2 heq =>
        have h1 : out2 = outDel := congrArg Prod.fst h
        subst h1
        rw [sumSig_initialise heq] at hT
        exact sumRelSig_initialise heq (ne_of_gt hT)
      next heq => exact absurd (congrArg Prod.snd h) (by simp)
    · exact absurd (congrArg Prod.snd h) (by simp)

/-- Witness for C4 as amended: a concrete add, edit and delete, each
successful with positive total significance. -/
theorem c4_amended_witness :
    sumRelSig [("cpu", ⟨1, 100, 0, 2/5, 0⟩), ("ram", ⟨1, 100, 0, 2/5, 0⟩),
      ("disk", ⟨1/2, 100, 0, 1/5, 0⟩)] = 1 ∧
    sumRelSig [("cpu", ⟨1/2, 100, 0, 1/3, 0⟩),
      ("ram", ⟨1, 100, 0, 2/3, 0⟩)] = 1 ∧
    sumRelSig [("cpu", ⟨1, 100, 0, 1, 0⟩)] = 1 := by
  obtain ⟨hA, hE, hD⟩ := c4_amended
    [("cpu", 100), ("ram", 2000), ("disk", 100)]
    [("cpu", ⟨1, 100, 0, 1/2, 0⟩), ("ram", ⟨1, 100, 0, 1/2, 0⟩)]
    "disk" "cpu" "ram" (some (1/2)) none none
    [("cpu", ⟨1, 100, 0, 2/5, 0⟩), ("ram", ⟨1, 100, 0, 2/5, 0⟩),
      ("disk", ⟨1/2, 100, 0, 1/5, 0⟩)]
    [("cpu", ⟨1/2, 100, 0, 1/3, 0⟩), ("ram", ⟨1, 100, 0, 2/3, 0⟩)]
    [("cpu", ⟨1, 100, 0, 1, 0⟩)]
  refine ⟨hA ?_ ?_, hE ?_ ?_, hD ?_ ?_⟩
  · unfold addFeedbackSource
    dsimp only []
    rw [show goTrimSpace "disk" = "disk" from by decide]
    rw [if_neg (by decide : ¬ ("disk" : String) = "")]
    rw [show (List.find? (fun p => decide (p.1 = "disk"))
      [("cpu", (100 : ℤ)), ("ram", 2000), ("disk", 100)]) =
      some ("disk", 100) from by decide]
    dsimp only []
    rw [if_neg (by decide : ¬ ([("cpu", (⟨1, 100, 0, 1/2, 0⟩ : FeedbackSource)),
      ("ram", ⟨1, 100, 0, 1/2, 0⟩)].any fun p => decide (p.1 = "disk")) = true)]
    have hinit : initialiseSources
        (List.map Prod.fst [("cpu", (100 : ℤ)), ("ram", 2000), ("disk", 100)])
        ([("cpu", (⟨1, 100, 0, 1/2, 0⟩ : FeedbackSource)),
          ("ram", ⟨1, 100, 0, 1/2, 0⟩)] ++
          [("disk", ⟨(some (1/2 : ℚ)).getD 1, (none : Option ℤ).getD
            ("disk", (100 : ℤ)).2, (none : Option ℤ).getD 0, 0, 0⟩)]) =
        some [("cpu", ⟨1, 100, 0, 2/5, 0⟩), ("ram", ⟨1, 100, 0, 2/5, 0⟩),
          ("disk", ⟨1/2, 100, 0, 1/5, 0⟩)] := by
      norm_num [initialiseSources, validSource, sumSig]
    rw [hinit]
  · norm_num [sumSig]
  · unfold editFeedbackSource
    dsimp only []
    rw [if_pos (by decide : ([("cpu", (⟨1, 100, 0, 1/2, 0⟩ : FeedbackSource)),
      ("ram", ⟨1, 100, 0, 1/2, 0⟩)].any fun p => decide (p.1 = "cpu")) = true)]
    have hmap : ([("cpu", (⟨1, 100, 0, 1/2, 0⟩ : FeedbackSource)),
        ("ram", ⟨1, 100, 0, 1/2, 0⟩)].map fun p =>
          if p.1 = "cpu" then
            (p.1, { p.2 with
              significance := (some (1/2 : ℚ)).getD p.2.significance,
              maxValue := (none : Option ℤ).getD p.2.maxValue,
              threshold := (none : Option ℤ).getD p.2.threshold })
          else p) =
        [("cpu", ⟨1/2, 100, 0, 1/2, 0⟩), ("ram", ⟨1, 100, 0, 1/2, 0⟩)] := by
      simp
    rw [hmap]
    have hinit : initialiseSources
        (List.map Prod.fst [("cpu", (100 : ℤ)), ("ram", 2000), ("disk", 100)])
        [("cpu", (⟨1/2, 100, 0, 1/2, 0⟩ : FeedbackSource)),
          ("ram", ⟨1, 100, 0, 1/2, 0⟩)] =
        some [("cpu", ⟨1/2, 100, 0, 1/3, 0⟩), ("ram", ⟨1, 100, 0, 2/3, 0⟩)] := by
      norm_num [initialiseSources, validSource, sumSig]
    rw [hinit]
  · norm_num [sumSig]
  · unfold deleteFeedbackSource
    dsimp only []
    rw [if_pos (by decide : ([("cpu", (⟨1, 100, 0, 1/2, 0⟩ : FeedbackSource)),
      ("ram", ⟨1, 100, 0, 1/2, 0⟩)].any fun p => decide (p.1 = "ram")) = true)]
    rw [show ([("cpu", (⟨1, 100, 0, 1/2, 0⟩ : FeedbackSource)),
      ("ram", ⟨1, 100, 0, 1/2, 0⟩)].filter fun p => ¬ p.1 = "ram") =
      [("cpu", ⟨1, 100, 0, 1/2, 0⟩)] from by simp]
    have hinit : initialiseSources
        (List.map Prod.fst [("cpu", (100 : ℤ)), ("ram", 2000), ("disk", 100)])
        [("cpu", (⟨1, 100, 0, 1/2, 0⟩ : FeedbackSource))] =
        some [("cpu", ⟨1, 100, 0, 1, 0⟩)] := by
      norm_num [initialiseSources, validSource, sumSig]
    rw [hinit]
  · norm_num [sumSig]

/-- State of the statistics model after its first observation, value 100,
from the default parameters a monitor installs. -/
theorem c5_state : NewValue (SetDefaultParams initialStatsModel) 100 =
    { XLastValue := 100, XCount := 1, XAdjustedMean := 100, XStdDev := 0,
      ZScoreValue := 0, XSum := 100, XSquaredSum := 10000, XMin := 100,
      XMax := 100, XCountLimit := 0x100000000, ZScoreSum := 0,
      ZScoreMean := 0, ZSampleCount := 1, ZMeanThreshold := 1,
      ZPredictionInterval := 5, Recentred := false, StatsDisabled := false,
      WeightCeiling := 99, WeightFloor := 0, WeightScalingFactor := 1,
      InverseWeight := false, ParamsSet := true, weightScore := 0 } := by
  simp only [NewValue, SetDefaultParams, initialStatsModel, addXValue,
    updateMinMax, recalcMean, recalcStdDev, recalcZScores, handleZWindow,
    RecentreModel, recentreMean, recentreZStats, calculateWeightScore]
  norm_num [Real.sqrt_zero]

/-- The weight ceiling is untouched by `addXValue`. -/
theorem addXValue_ceil (m : StatisticsModel) (v : ℝ) :
    (addXValue m v).WeightCeiling = m.WeightCeiling := rfl

/-- The weight floor is untouched by `addXValue`. -/
theorem addXValue_floor (m : StatisticsModel) (v : ℝ) :
    (addXValue m v).WeightFloor = m.WeightFloor := rfl

/-- The weight ceiling is untouched by `updateMinMax`. -/
theorem updateMinMax_ceil (m : StatisticsModel) :
    (updateMinMax m).WeightCeiling = m.WeightCeiling := by
  unfold updateMinMax
  dsimp only
  split_ifs <;> rfl

/-- The weight floor is untouched by `updateMinMax`. -/
theorem updateMinMax_floor (m : StatisticsModel) :
    (updateMinMax m).WeightFloor = m.WeightFloor := by
  unfold updateMinMax
  dsimp only
  split_ifs <;> rfl

/-- The weight ceiling is untouched by `recalcMean`. -/
theorem recalcMean_ceil (m : StatisticsModel) :
    (recalcMean m).WeightCeiling = m.WeightCeiling := rfl

/-- The weight floor is untouched by `recalcMean`. -/
theorem recalcMean_floor (m : StatisticsModel) :
    (recalcMean m).WeightFloor = m.WeightFloor := rfl

/-- The weight ceiling is untouched by `recalcStdDev`. -/
theorem recalcStdDev_ceil (m : StatisticsModel) :
    (recalcStdDev m).WeightCeiling = m.WeightCeiling := rfl

/-- The weight floor is untouched by `recalcStdDev`. -/
theorem recalcStdDev_floor (m : StatisticsModel) :
    (recalcStdDev m).WeightFloor = m.WeightFloor := rfl

/-- The weight ceiling is untouched by `recalcZScores`. -/
theorem recalcZScores_ceil (m : StatisticsModel) :
    (recalcZScores m).WeightCeiling = m.WeightCeiling := rfl

/-- The weight floor is untouched by `recalcZScores`. -/
theorem recalcZScores_floor (m : StatisticsModel) :
    (recalcZScores m).WeightFloor = m.WeightFloor := rfl

/-- The weight ceiling is untouched by `RecentreModel`. -/
theorem RecentreModel_ceil (m : StatisticsModel) :
    (RecentreModel m).WeightCeiling = m.WeightCeiling := rfl

/-- The weight floor is untouched by `RecentreModel`. -/
theorem RecentreModel_floor (m : StatisticsModel) :
    (RecentreModel m).WeightFloor = m.WeightFloor := rfl

/-- The weight ceiling is untouched by `handleZWindow`. -/
theorem handleZWindow_ceil (m : StatisticsModel) :
    (handleZWindow m).WeightCeiling = m.WeightCeiling := by
  unfold handleZWindow
  split_ifs <;> rfl

/-- The weight floor is untouched by `handleZWindow`. -/
theorem handleZWindow_floor (m : StatisticsModel) :
    (handleZWindow m).WeightFloor = m.WeightFloor := by
  unfold handleZWindow
  split_ifs <;> rfl

/-- With the default weight range (floor 0, ceiling 99) the computed
weight score always lands in [0, 99]. -/
theorem calculateWeightScore_bounds (m : StatisticsModel)
    (hC : m.WeightCeiling = 99) (hF : m.WeightFloor = 0) :
    0 ≤ (calculateWeightScore m).weightScore ∧
    (calculateWeightScore m).weightScore ≤ 99 := by
  unfold calculateWeightScore
  dsimp only
  rw [hC, hF]
  have hfr : (0 : ℝ) ≤ (if m.XAdjustedMean / 100 < 0 then 0
      else if m.XAdjustedMean / 100 > 1 then 1 else m.XAdjustedMean / 100) ∧
      (if m.XAdjustedMean / 100 < 0 then 0
      else if m.XAdjustedMean / 100 > 1 then 1 else m.XAdjustedMean / 100)
        ≤ 1 := by
    split_ifs with h1 h2 <;> constructor <;> linarith
  set fr := (if m.XAdjustedMean / 100 < 0 then (0 : ℝ)
      else if m.XAdjustedMean / 100 > 1 then 1 else m.XAdjustedMean / 100)
  have hmul0 : (0 : ℝ) ≤ fr * ((99 - 0 : ℤ) : ℝ) := by
    push_cast
    nlinarith [hfr.1, hfr.2]
  have hmul1 : fr * ((99 - 0 : ℤ) : ℝ) ≤ 99 := by
    push_cast
    nlinarith [hfr.1, hfr.2]
  have hlow : 0 ≤ ⌊fr * ((99 - 0 : ℤ) : ℝ)⌋ := Int.floor_nonneg.mpr hmul0
  have hhigh : ⌊fr * ((99 - 0 : ℤ) : ℝ)⌋ ≤ 99 := by
    have := Int.floor_le (fr * ((99 - 0 : ℤ) : ℝ))
    have h99 : ((⌊fr * ((99 - 0 : ℤ) : ℝ)⌋ : ℝ)) ≤ 99 := le_trans this hmul1
    exact_mod_cast h99
  split_ifs <;> constructor <;> omega

/-- Claim C5 as amended: for any observation fed to a model carrying the
default weight parameters (ceiling 99, floor 0 — installed automatically
when no parameters were set), the integer result lies in [0, 99].  It is
derived from the clamped adjusted mean through the inverted weight-score
formula, not bounded by round(min)/round(max) and not equal to
round(last observation). -/
theorem c5_amended (m : StatisticsModel) (v : ℝ)
    (h : m.ParamsSet = false ∨ (m.WeightCeiling = 99 ∧ m.WeightFloor = 0)) :
    0 ≤ GetWeightScore (NewValue m v) ∧ GetWeightScore (NewValue m v) ≤ 99 := by
  have hCF : ∀ mm : StatisticsModel, mm.WeightCeiling = 99 →
      mm.WeightFloor = 0 →
      0 ≤ GetWeightScore (calculateWeightScore mm) ∧
      GetWeightScore (calculateWeightScore mm) ≤ 99 := by
    intro mm hC hF
    unfold GetWeightScore
    split_ifs with hcnt
    · rw [show (calculateWeightScore mm).WeightCeiling = mm.WeightCeiling
        from rfl, hC]
      omega
    · exact calculateWeightScore_bounds mm hC hF
  have hbase : (if ¬ m.ParamsSet then SetDefaultParams m else m).WeightCeiling
      = 99 ∧ (if ¬ m.ParamsSet then SetDefaultParams m else m).WeightFloor
      = 0 := by
    rcases h with h | ⟨h1, h2⟩
    · rw [if_pos (by rw [h]; exact Bool.false_ne_true)]
      exact ⟨rfl, rfl⟩
    · split_ifs
      · exact ⟨h1, h2⟩
      · exact ⟨rfl, rfl⟩
  unfold NewValue
  dsimp only
  set mb := if ¬ m.ParamsSet then SetDefaultParams m else m with hmb
  refine hCF _ ?_ ?_ <;> split_ifs with hd hc <;>
    simp only [handleZWindow_ceil, handleZWindow_floor, RecentreModel_ceil,
      RecentreModel_floor, recalcZScores_ceil, recalcZScores_floor,
      recalcStdDev_ceil, recalcStdDev_floor, recalcMean_ceil,
      recalcMean_floor, updateMinMax_ceil, updateMinMax_floor,
      addXValue_ceil, addXValue_floor] <;>
    first
      | exact hbase.1
      | exact hbase.2

/-- Counterexample to claim C5: after a single observation of 100 with
shaping enabled (stats not disabled), the model returns weight score 0
while the observed minimum and maximum are both 100, so the result lies
far outside [round(min), round(max)] = [100, 100]. -/
theorem c5_counterexample :
    (NewValue (SetDefaultParams initialStatsModel) 100).XCount = 1 ∧
    (NewValue (SetDefaultParams initialStatsModel) 100).StatsDisabled
      = false ∧
    GetWeightScore (NewValue (SetDefaultParams initialStatsModel) 100) = 0 ∧
    goRoundR (NewValue (SetDefaultParams initialStatsModel) 100).XMin
      = 100 ∧
    goRoundR (NewValue (SetDefaultParams initialStatsModel) 100).XMax
      = 100 ∧
    ¬ (goRoundR (NewValue (SetDefaultParams initialStatsModel) 100).XMin ≤
        GetWeightScore (NewValue (SetDefaultParams initialStatsModel) 100)) := by
  rw [c5_state]
  refine ⟨rfl, rfl, ?_, ?_, ?_, ?_⟩ <;>
    norm_num [GetWeightScore, goRoundR]

/-- Witness for C5 as amended at the default model observing 100. -/
theorem c5_amended_witness :
    0 ≤ GetWeightScore (NewValue (SetDefaultParams initialStatsModel) 100) ∧
    GetWeightScore (NewValue (SetDefaultParams initialStatsModel) 100)
      ≤ 99 :=
  c5_amended (SetDefaultParams initialStatsModel) 100 (Or.inr ⟨rfl, rfl⟩)

/-- Square root of 2500, as needed to evaluate the model states below. -/
theorem sqrt_2500 : Real.sqrt 2500 = 50 := by
  rw [show (2500 : ℝ) = 50 ^ 2 by norm_num,
    Real.sqrt_sq (by norm_num : (0 : ℝ) ≤ 50)]

/-- State of the statistics model after observing 0 from the default
parameters. -/
theorem c6_state1 : NewValue (SetDefaultParams initialStatsModel) 0 =
    { XLastValue := 0, XCount := 1, XAdjustedMean := 0, XStdDev := 0,
      ZScoreValue := 0, XSum := 0, XSquaredSum := 0, XMin := 0,
      XMax := 0, XCountLimit := 0x100000000, ZScoreSum := 0,
      ZScoreMean := 0, ZSampleCount := 1, ZMeanThreshold := 1,
      ZPredictionInterval := 5, Recentred := false, StatsDisabled := false,
      WeightCeiling := 99, WeightFloor := 0, WeightScalingFactor := 1,
      InverseWeight := false, ParamsSet := true, weightScore := 99 } := by
  simp only [NewValue, SetDefaultParams, initialStatsModel, addXValue,
    updateMinMax, recalcMean, recalcStdDev, recalcZScores, handleZWindow,
    RecentreModel, recentreMean, recentreZStats, calculateWeightScore]
  norm_num [Real.sqrt_zero]

/-- State of the statistics model after next observing 100: the standard
deviation becomes 50. -/
theorem c6_state2 : NewValue
    { XLastValue := 0, XCount := 1, XAdjustedMean := 0, XStdDev := 0,
      ZScoreValue := 0, XSum := 0, XSquaredSum := 0, XMin := 0,
      XMax := 0, XCountLimit := 0x100000000, ZScoreSum := 0,
      ZScoreMean := 0, ZSampleCount := 1, ZMeanThreshold := 1,
      ZPredictionInterval := 5, Recentred := false, StatsDisabled := false,
      WeightCeiling := 99, WeightFloor := 0, WeightScalingFactor := 1,
      InverseWeight := false, ParamsSet := true, weightScore := 99 } 100 =
    { XLastValue := 100, XCount := 2, XAdjustedMean := 50, XStdDev := 50,
      ZScoreValue := 1, XSum := 100, XSquaredSum := 10000, XMin := 0,
      XMax := 100, XCountLimit := 0x100000000, ZScoreSum := 1,
      ZScoreMean := 1/2, ZSampleCount := 2, ZMeanThreshold := 1,
      ZPredictionInterval := 5, Recentred := false, StatsDisabled := false,
      WeightCeiling := 99, WeightFloor := 0, WeightScalingFactor := 1,
      InverseWeight := false, ParamsSet := true, weightScore := 50 } := by
  simp only [NewValue, SetDefaultParams, addXValue, updateMinMax, recalcMean,
    recalcStdDev, recalcZScores, handleZWindow, RecentreModel, recentreMean,
    recentreZStats, calculateWeightScore]
  norm_num [show ((0 : ℝ) + 100 ^ 2) / 2 - ((0 + 100) / 2) ^ 2 = 2500
    by norm_num, sqrt_2500]

/-- Counterexample to claim C6: after observing 0 then 100 and recentring,
a state with n = 1 is reached whose stored standard deviation is still 50,
so stddev² = 2500 while Σx²/n − (Σx/n)² = 0: the invariant fails because
`RecentreModel` does not reset the stored standard deviation. -/
theorem c6_counterexample :
    (RecentreModel (NewValue (NewValue
      (SetDefaultParams initialStatsModel) 0) 100)).XCount = 1 ∧
    ¬ ((RecentreModel (NewValue (NewValue
        (SetDefaultParams initialStatsModel) 0) 100)).XStdDev ^ 2 =
      (RecentreModel (NewValue (NewValue
        (SetDefaultParams initialStatsModel) 0) 100)).XSquaredSum /
        ((RecentreModel (NewValue (NewValue
          (SetDefaultParams initialStatsModel) 0) 100)).XCount : ℝ) -
      ((RecentreModel (NewValue (NewValue
        (SetDefaultParams initialStatsModel) 0) 100)).XSum /
        ((RecentreModel (NewValue (NewValue
          (SetDefaultParams initialStatsModel) 0) 100)).XCount : ℝ)) ^ 2) := by
  rw [c6_state1, c6_state2]
  constructor
  · rfl
  · norm_num [RecentreModel, recentreMean, recentreZStats]

/-- Claim C6 as amended: the identity stddev² = Σx²/n − (Σx/n)² holds
immediately after every `recalcStdDev` (whenever the variance expression
is nonnegative, as it is for any genuine observation history), and
recentring collapses the state to a single virtual observation at the
adjusted mean (n = 1, Σx = mean, Σx² = mean²), preserving the adjusted
mean and the reported weight score — but it leaves the stored standard
deviation unchanged rather than resetting it, so the identity can fail in
the recentred state. -/
theorem c6_amended (m : StatisticsModel) :
    (0 ≤ m.XSquaredSum / (m.XCount : ℝ) - (m.XSum / (m.XCount : ℝ)) ^ 2 →
      (recalcStdDev m).XStdDev ^ 2 =
        (recalcStdDev m).XSquaredSum / ((recalcStdDev m).XCount : ℝ) -
        ((recalcStdDev m).XSum / ((recalcStdDev m).XCount : ℝ)) ^ 2) ∧
    (RecentreModel m).XCount = 1 ∧
    (RecentreModel m).XSum = m.XAdjustedMean ∧
    (RecentreModel m).XSquaredSum = m.XAdjustedMean ^ 2 ∧
    (RecentreModel m).XAdjustedMean = m.XAdjustedMean ∧
    (RecentreModel m).weightScore = m.weightScore ∧
    (RecentreModel m).XStdDev = m.XStdDev := by
  refine ⟨?_, rfl, rfl, rfl, rfl, rfl, rfl⟩
  intro h
  exact Real.sq_sqrt h

/-- Witness for C6 as amended at the zero model. -/
theorem c6_amended_witness :
    (recalcStdDev initialStatsModel).XStdDev ^ 2 =
      (recalcStdDev initialStatsModel).XSquaredSum /
        ((recalcStdDev initialStatsModel).XCount : ℝ) -
      ((recalcStdDev initialStatsModel).XSum /
        ((recalcStdDev initialStatsModel).XCount : ℝ)) ^ 2 ∧
    (RecentreModel initialStatsModel).XCount = 1 :=
  ⟨(c6_amended initialStatsModel).1 (by norm_num [initialStatsModel]),
    (c6_amended initialStatsModel).2.1⟩
